import Mathlib

/- Shallow embedding of src/bot.py (single-file Telegram pet-shop bot).

   The embedding covers the rows of the SQLAlchemy data model and the
   handlers the claims concern: get_referral_discount,
   find_active_user_promo, handle_promo_input, apply_discounts_to_purchase,
   admin_purchase_action and pet_buy_cb.

   Monetary values are SQLAlchemy Numeric(10,2) columns manipulated through
   Python Decimal.  Every Decimal value reached by this code path is an
   exact decimal fraction well inside the default 28-digit context, so the
   arithmetic is embedded exactly as rational arithmetic.
   Decimal.quantize(Decimal('0.01')) under the default context rounds half
   to even; rhe below is that rounding to an integer number of cents.

   Python exceptions that abort a handler before its session.commit leave
   the database unchanged (the session is closed without committing); such
   aborts are modelled either by an explicit error value (for
   apply_discounts_to_purchase, where claim C10 is about them) or by
   returning the state unchanged. -/

/- Batteries marks the Rat arithmetic irreducible, which blocks the
   elaborator-side evaluation that the decide tactic performs on the
   concrete example states below; the kernel itself reduces them fine.
   Restore default reducibility locally. -/
attribute [local semireducible] Rat.mul Rat.inv Rat.add Rat.sub Rat.ofScientific

deriving instance DecidableEq for Except

namespace GardensShop

/-- Row of the users table (src/bot.py lines 83-95).  tg_id carries a
unique index, so at most one row per Telegram id exists. -/
structure User where
  tg_id : Nat
  username : String
  balance : ℚ
  purchases : Nat
  referrals : Nat
  referred_by : Option Nat
  agreed : Bool
  active : Bool
  warnings : Nat
  banned : Bool
  deriving DecidableEq

/-- Row of the pets table (src/bot.py lines 97-104).  price is
Numeric(10,2): an exact multiple of 0.01. -/
structure Pet where
  id : Nat
  name : String
  rarity : String
  price : ℚ
  pet_desc : String
  photo_file_id : Option String
  deriving DecidableEq

/-- Row of the purchases table (src/bot.py lines 112-119).  status is the
literal string column: pending, accepted or rejected. -/
structure Purchase where
  id : Nat
  user_id : Nat
  pet_id : Nat
  status : String
  proof_file_id : Option String
  price_paid : ℚ
  deriving DecidableEq

/-- Row of the promos table (src/bot.py lines 121-127).  uses_left is a
nullable Integer column; handle_promo_input tests it against None with
getattr, hence the Option. -/
structure Promo where
  id : Nat
  code : String
  discount_percent : ℤ
  permanent : Bool
  uses_left : Option ℤ
  deriving DecidableEq

/-- Row of the user_promos table (src/bot.py lines 701-707): one buyer's
activation of a promo code. -/
structure UserPromo where
  id : Nat
  user_id : Nat
  promo_id : Nat
  is_used : Bool
  activated_at : Nat
  deriving DecidableEq

/-- Row of the referral_relations table (src/bot.py lines 709-715). -/
structure ReferralRelation where
  id : Nat
  referrer_id : Nat
  invited_id : Nat
  confirmed : Bool
  confirmed_at : Option Nat
  deriving DecidableEq

/-- The sqlite database state: one list per table. -/
structure DB where
  users : List User
  pets : List Pet
  purchases : List Purchase
  promos : List Promo
  user_promos : List UserPromo
  referral_relations : List ReferralRelation
  deriving DecidableEq

/-- session.query(Purchase).get(pid): primary-key lookup. -/
def findPurchase (db : DB) (pid : Nat) : Option Purchase :=
  db.purchases.find? (fun p => p.id == pid)

/-- session.query(Pet).get(pet_id): primary-key lookup. -/
def findPet (db : DB) (pet_id : Nat) : Option Pet :=
  db.pets.find? (fun p => p.id == pet_id)

/-- session.query(User).filter_by(tg_id=t).first(). -/
def findUserByTg (db : DB) (tg : Nat) : Option User :=
  db.users.find? (fun u => u.tg_id == tg)

/-- session.query(Promo).get(promo_id): primary-key lookup. -/
def findPromo (db : DB) (promo_id : Nat) : Option Promo :=
  db.promos.find? (fun p => p.id == promo_id)

/-- Round a rational to an integer, half to even: the rounding mode of
Decimal.quantize under Python's default context. -/
def rhe (q : ℚ) : ℤ :=
  let n := ⌊q⌋
  if q - n < 1/2 then n
  else if 1/2 < q - n then n + 1
  else if n % 2 = 0 then n else n + 1

/-- Decimal.quantize(Decimal('0.01')): round to a whole number of cents,
half to even. -/
def quantize2 (x : ℚ) : ℚ := (rhe (x * 100) : ℚ) / 100

/-- Number of confirmed referral relations held by the referrer with
Telegram id tg (the count inside get_referral_discount, src/bot.py
line 723). -/
def confirmedReferralCount (db : DB) (tg : Nat) : Nat :=
  (db.referral_relations.filter (fun r => r.referrer_id == tg && r.confirmed)).length

/-- get_referral_discount (src/bot.py lines 721-730): referral-tier
discount percent from the confirmed referral count. -/
def get_referral_discount (db : DB) (user : User) : ℤ :=
  let cnt := confirmedReferralCount db user.tg_id
  if cnt ≥ 50 then 30
  else if cnt ≥ 25 then 15
  else if cnt ≥ 5 then 5
  else 0

/-- Fold step realising order_by(UserPromo.activated_at.desc()).first():
keep the candidate activated latest, the earlier-listed row winning ties
(sqlite leaves the order of ties unspecified; the theorems below do not
depend on the tie-break). -/
def laterActivated (a : Option UserPromo) (r : UserPromo) : Option UserPromo :=
  match a with
  | none => some r
  | some b => if b.activated_at < r.activated_at then some r else some b

/-- find_active_user_promo (src/bot.py lines 732-734): the most recently
activated unused promo activation of this buyer, if any. -/
def find_active_user_promo (db : DB) (user_id : Nat) : Option UserPromo :=
  (db.user_promos.filter (fun r => r.user_id == user_id && r.is_used == false)).foldl
    laterActivated none

/-- ORM write purchase.price_paid = price on the row with primary key pid. -/
def setPurchasePrice (db : DB) (pid : Nat) (price : ℚ) : DB :=
  { db with purchases :=
      db.purchases.map (fun p => if p.id == pid then { p with price_paid := price } else p) }

/-- ORM write purchase.status = s on the row with primary key pid. -/
def setPurchaseStatus (db : DB) (pid : Nat) (s : String) : DB :=
  { db with purchases :=
      db.purchases.map (fun p => if p.id == pid then { p with status := s } else p) }

/-- ORM write up.is_used = True on the user_promos row with primary key upId. -/
def markPromoUsed (db : DB) (upId : Nat) : DB :=
  { db with user_promos :=
      db.user_promos.map (fun r => if r.id == upId then { r with is_used := true } else r) }

/-- Exceptions that can escape apply_discounts_to_purchase before its
commit: an AttributeError from dereferencing a missing pet or user row,
or the Decimal error raised by the division (base - final_price) / base
when base is zero (DivisionByZero, or InvalidOperation for 0/0). -/
inductive PyErr where
  | attrError
  | divByZero
  deriving DecidableEq

/-- The cap block of apply_discounts_to_purchase (src/bot.py lines
813-817) with maxcap = Decimal('0.5') inlined: clamp the already-rounded
candidate price x to base times 0.5, re-rounded to cents, whenever the
discount fraction exceeds one half.  Only evaluated with base nonzero
(the division raises otherwise, handled by the caller below). -/
def capApplied (base x : ℚ) : ℚ :=
  if (base - x) / base > 1/2 then quantize2 (base * (1 - 1/2)) else x

/-- apply_discounts_to_purchase (src/bot.py lines 785-820).

The source reads the purchase row, the buyer and the live pet row, takes
base from the live catalog price, applies the buyer's most recent unused
promo activation unconditionally when its promo row exists (marking it
used), otherwise applies the referral-tier discount when positive, then
clamps with the 50 percent cap guarded by applied being set, and persists
price_paid.  An exception aborts before the single commit, so an error
leaves the database unchanged. -/
def apply_discounts_to_purchase (db : DB) (purchase_id : Nat) : Except PyErr DB :=
  match findPurchase db purchase_id with
  | none => .ok db
  | some purchase =>
    match findPet db purchase.pet_id with
    | none => .error .attrError
    | some pet =>
      match findUserByTg db purchase.user_id with
      | none => .error .attrError
      | some user =>
        let base : ℚ := pet.price
        match find_active_user_promo db user.tg_id with
        | some up =>
          match findPromo db up.promo_id with
          | some promo =>
            let discount : ℚ := (promo.discount_percent : ℚ) / 100
            let final0 : ℚ := quantize2 (base * (1 - discount))
            if base = 0 then .error .divByZero
            else
              .ok (setPurchasePrice (markPromoUsed db up.id) purchase_id
                    (capApplied base final0))
          | none =>
            -- up is truthy but its promo row is gone: applied stays None,
            -- final_price stays base, the cap block is skipped.
            .ok (setPurchasePrice db purchase_id base)
        | none =>
          let ref := get_referral_discount db user
          if ref > 0 then
            let final0 : ℚ := quantize2 (base * (1 - (ref : ℚ) / 100))
            if base = 0 then .error .divByZero
            else .ok (setPurchasePrice db purchase_id (capApplied base final0))
          else .ok (setPurchasePrice db purchase_id base)

/-- Fresh autoincrement primary key for a new user_promos row. -/
def nextUserPromoId (db : DB) : Nat :=
  (db.user_promos.foldl (fun a r => max a r.id) 0) + 1

/-- Fresh autoincrement primary key for a new purchases row. -/
def nextPurchaseId (db : DB) : Nat :=
  (db.purchases.foldl (fun a p => max a p.id) 0) + 1

/-- The tail of handle_promo_input (src/bot.py lines 765-779) after the
uses_left guard: compare against the referral tier, then register the
one-time activation and decrement a limited promo's uses_left. -/
def handlePromoEligible (db : DB) (tg : Nat) (promo : Promo) (now : Nat) : DB :=
  match findUserByTg db tg with
  | none => db
  | some user =>
    if promo.discount_percent ≤ get_referral_discount db user then db
    else
      let up : UserPromo :=
        { id := nextUserPromoId db, user_id := tg, promo_id := promo.id
          is_used := false, activated_at := now }
      let db1 := { db with user_promos := db.user_promos ++ [up] }
      match promo.uses_left with
      | some u =>
        { db1 with promos :=
            db1.promos.map (fun p =>
              if p.id == promo.id then { p with uses_left := some (u - 1) } else p) }
      | none => db1

/-- handle_promo_input (src/bot.py lines 743-782): a buyer sends a promo
code.  The Promo model has no expires_at column, so the
getattr(promo, 'expires_at', None) guard in the source always sees None
and the expiry check never fires; it is therefore absent here.  A
missing users row raises AttributeError inside get_referral_discount
before anything is added, leaving the database unchanged.  On success a
one-time unused activation row is added and a limited promo's global
uses_left is decremented. -/
def handle_promo_input (db : DB) (tg : Nat) (code : String) (now : Nat) : DB :=
  match db.promos.find? (fun p => p.code == code) with
  | none => db
  | some promo =>
    match promo.uses_left with
    | some u =>
      if u ≤ 0 then db
      else handlePromoEligible db tg promo now
    | none => handlePromoEligible db tg promo now

/-- The buyer-row update of the accept branch (src/bot.py line 455):
buyer.purchases += 1 on the row with the purchase's buyer id (tg_id is
unique, so at most one row matches). -/
def bumpPurchases (uid : Nat) (u : User) : User :=
  if u.tg_id == uid then { u with purchases := u.purchases + 1 } else u

/-- The buyer-row update of the reject branch (src/bot.py lines 462-467):
buyer.warnings += 1, and banned is set once the new count reaches 3. -/
def bumpWarnings (uid : Nat) (u : User) : User :=
  if u.tg_id == uid then
    { u with warnings := u.warnings + 1
             banned := if u.warnings + 1 >= 3 then true else u.banned }
  else u

/-- admin_purchase_action (src/bot.py lines 437-470): a staff decision on
a purchase.  There is no status guard: accept always writes status
accepted and increments the buyer's purchase count, whatever the current
status; any action other than accept takes the reject branch, writing
status rejected, incrementing the buyer's warning count and setting
banned once the new count reaches 3.  A missing buyer row raises
AttributeError before the commit, leaving the database unchanged.
tg_id is unique, so the map touches at most one users row. -/
def admin_purchase_action (db : DB) (isAdmin : Bool) (action : String) (pid : Nat) : DB :=
  match findPurchase db pid with
  | none => db
  | some purchase =>
    if !isAdmin then db
    else
      match findUserByTg db purchase.user_id with
      | none => db
      | some _buyer =>
        if action == "accept" then
          let db1 := setPurchaseStatus db pid "accepted"
          { db1 with users := db1.users.map (bumpPurchases purchase.user_id) }
        else
          let db1 := setPurchaseStatus db pid "rejected"
          { db1 with users := db1.users.map (bumpWarnings purchase.user_id) }

/-- pet_buy_cb (src/bot.py lines 371-391): the buy callback.  If the pet
exists it creates a pending purchase whose price_paid snapshots the
current catalog price.  No banned check happens here (only the buy_menu
text handler checks banned) and the buyer need not even have a users
row. -/
def pet_buy_cb (db : DB) (tg : Nat) (pet_id : Nat) : DB :=
  match findPet db pet_id with
  | none => db
  | some pet =>
    let purchase : Purchase :=
      { id := nextPurchaseId db, user_id := tg, pet_id := pet.id
        status := "pending", proof_file_id := none, price_paid := pet.price }
    { db with purchases := db.purchases ++ [purchase] }

/-- Readout: price_paid of the purchase with primary key pid (0 when the
row is absent, which the theorems below rule out). -/
def purchasePrice (db : DB) (pid : Nat) : ℚ :=
  ((findPurchase db pid).map (fun p => p.price_paid)).getD 0

/-- Readout: status of the purchase with primary key pid. -/
def purchaseStatus (db : DB) (pid : Nat) : Option String :=
  (findPurchase db pid).map (fun p => p.status)

/-- Readout: is_used of the user_promos row with primary key upId, as the
truth of some unused or used row existing under that key. -/
def usedOf (db : DB) (upId : Nat) : Bool :=
  db.user_promos.any (fun r => r.id == upId && r.is_used)

/-- Readout: whether a user_promos row with primary key upId exists. -/
def presentOf (db : DB) (upId : Nat) : Bool :=
  db.user_promos.any (fun r => r.id == upId)

/-- Readout: warnings of the buyer with Telegram id tg. -/
def userWarnings (db : DB) (tg : Nat) : Option Nat :=
  (findUserByTg db tg).map (fun u => u.warnings)

/-- Readout: banned flag of the buyer with Telegram id tg. -/
def userBanned (db : DB) (tg : Nat) : Option Bool :=
  (findUserByTg db tg).map (fun u => u.banned)

/-- Readout: purchase count of the buyer with Telegram id tg. -/
def userPurchases (db : DB) (tg : Nat) : Option Nat :=
  (findUserByTg db tg).map (fun u => u.purchases)

/-- Readout: balance of the buyer with Telegram id tg. -/
def userBalance (db : DB) (tg : Nat) : Option ℚ :=
  (findUserByTg db tg).map (fun u => u.balance)

/-- The inbound events that touch the promo and purchase tables, for
stating lifecycle invariants over arbitrary event sequences. -/
inductive Op where
  | buy (tg pet_id : Nat)
  | promoInput (tg : Nat) (code : String) (now : Nat)
  | adminAct (isAdmin : Bool) (action : String) (pid : Nat)
  | applyDiscounts (pid : Nat)
  deriving DecidableEq

/-- apply_discounts_to_purchase as a state transformer: an exception
aborts before the commit, so the database is left unchanged. -/
def applyRun (db : DB) (pid : Nat) : DB :=
  match apply_discounts_to_purchase db pid with
  | .ok d => d
  | .error _ => db

/-- One inbound event against the shared database. -/
def step (db : DB) (op : Op) : DB :=
  match op with
  | .buy tg pet_id => pet_buy_cb db tg pet_id
  | .promoInput tg code now => handle_promo_input db tg code now
  | .adminAct isAdmin action pid => admin_purchase_action db isAdmin action pid
  | .applyDiscounts pid => applyRun db pid

/-- A sequence of inbound events. -/
def run (db : DB) : List Op → DB
  | [] => db
  | op :: rest => run (step db op) rest

/-- Whether an event is an order finalization (a call to
apply_discounts_to_purchase). -/
def isApplyOp : Op → Bool
  | .applyDiscounts _ => true
  | _ => false

/-- How many events of the sequence flip the is_used flag of the
user_promos row upId from false to true. -/
def flipCount (db : DB) (upId : Nat) : List Op → Nat
  | [] => 0
  | op :: rest =>
    (if usedOf db upId = false ∧ usedOf (step db op) upId = true then 1 else 0) +
      flipCount (step db op) upId rest

/-- Modelled from the spec: the order states of section 4.2.  The source
purchases table only has the string statuses pending, accepted and
rejected, and src/bot.py contains no scheduler, no payment timeout and no
Expired state at all; the full state set is taken from the spec's words. -/
inductive OrderStatus where
  | draft
  | awaitingPayment
  | proofSubmitted
  | confirmed
  | rejected
  | expired
  deriving DecidableEq

/-- Modelled from the spec: the timeout handler of section 4.2, which
must re-check the current state before mutating and move the order to
Expired only when it is still AwaitingPayment, leaving any other state
untouched.  No such handler exists in src/bot.py. -/
def expire_timeout (s : OrderStatus) : OrderStatus :=
  if s = .awaitingPayment then .expired else s

/-- Modelled from the spec: rounding half-up to two decimal places, the
rounding mode the spec prescribes for the clamp (for the nonnegative
prices at issue, ties round up, which agrees with Decimal
ROUND_HALF_UP's ties away from zero).  Stated only for comparison with
the implementation's quantize2. -/
def roundHalfUp2 (x : ℚ) : ℚ := (⌊x * 100 + 1/2⌋ : ℚ) / 100

/-- Example scaffolding: a fresh buyer row. -/
def mkUser (tg : Nat) : User :=
  { tg_id := tg, username := "", balance := 0, purchases := 0, referrals := 0
    referred_by := none, agreed := true, active := true, warnings := 0, banned := false }

/-- Example scaffolding: a catalog row with the given price. -/
def mkPet (i : Nat) (price : ℚ) : Pet :=
  { id := i, name := "pet", rarity := "common", price := price
    pet_desc := "", photo_file_id := none }

/-- Example scaffolding: a pending purchase row. -/
def mkPurchase (i uid petid : Nat) (price : ℚ) : Purchase :=
  { id := i, user_id := uid, pet_id := petid, status := "pending"
    proof_file_id := none, price_paid := price }

/-- Example scaffolding: a promo definition with ten uses left. -/
def mkPromo (i : Nat) (code : String) (percent : ℤ) : Promo :=
  { id := i, code := code, discount_percent := percent, permanent := false
    uses_left := some 10 }

/-- Example scaffolding: an unused promo activation. -/
def mkUserPromo (i uid pid : Nat) : UserPromo :=
  { id := i, user_id := uid, promo_id := pid, is_used := false, activated_at := 0 }

/-- Example scaffolding: a confirmed referral relation. -/
def mkConfirmedRel (i referrer invited : Nat) : ReferralRelation :=
  { id := i, referrer_id := referrer, invited_id := invited, confirmed := true
    confirmed_at := some 0 }

/-- C1 counterexample state: buyer 1 holds an unused 5 percent promo
activation although 25 confirmed referrals already give a 15 percent
tier (the strict comparison happens only at activation time, and
referrals confirmed afterwards can overtake the promo). -/
def C1cUser : User := mkUser 1

/-- C1 counterexample state, full database. -/
def C1cDB : DB :=
  { users := [C1cUser], pets := [mkPet 1 100], purchases := [mkPurchase 1 1 1 100]
    promos := [mkPromo 1 "SAVE5" 5], user_promos := [mkUserPromo 1 1 1]
    referral_relations := (List.range 25).map (fun i => mkConfirmedRel (i+1) 1 (100+i)) }

/-- C1 witness rows: buyer 2 with no referrals and a 60 percent promo. -/
def C1wUser : User := mkUser 2

/-- C1 witness catalog row. -/
def C1wPet : Pet := mkPet 1 100

/-- C1 witness purchase row. -/
def C1wPurchase : Purchase := mkPurchase 1 2 1 100

/-- C1 witness promo definition. -/
def C1wPromo : Promo := mkPromo 1 "BIG60" 60

/-- C1 witness promo activation. -/
def C1wUp : UserPromo := mkUserPromo 1 2 1

/-- C1 witness database. -/
def C1wDB : DB :=
  { users := [C1wUser], pets := [C1wPet], purchases := [C1wPurchase]
    promos := [C1wPromo], user_promos := [C1wUp], referral_relations := [] }

/-- C2 counterexample catalog row: a one-cent price. -/
def C2cPet : Pet := mkPet 1 (1/100)

/-- C2 counterexample state: one-cent pet, 60 percent promo; the rounded
clamp lands strictly below half of the base price. -/
def C2cDB : DB :=
  { users := [mkUser 1], pets := [C2cPet], purchases := [mkPurchase 1 1 1 (1/100)]
    promos := [mkPromo 1 "BIG60" 60], user_promos := [mkUserPromo 1 1 1]
    referral_relations := [] }

/-- C2 witness rows: buyer 1, 100-unit price, 60 percent promo. -/
def C2wUser : User := mkUser 1

/-- C2 witness catalog row. -/
def C2wPet : Pet := mkPet 1 100

/-- C2 witness purchase row. -/
def C2wPurchase : Purchase := mkPurchase 1 1 1 100

/-- C2 witness database. -/
def C2wDB : DB :=
  { users := [C2wUser], pets := [C2wPet], purchases := [C2wPurchase]
    promos := [mkPromo 1 "BIG60" 60], user_promos := [mkUserPromo 1 1 1]
    referral_relations := [] }

/-- C3 counterexample state: buyer 1 (referred by buyer 9) with one
pending purchase; buyer 9 present with zero balance. -/
def C3cDB : DB :=
  { users := [{ mkUser 1 with referred_by := some 9 }, mkUser 9]
    pets := [mkPet 1 100], purchases := [mkPurchase 1 1 1 100]
    promos := [], user_promos := []
    referral_relations := [mkConfirmedRel 1 9 1] }

/-- C3 counterexample: state after the first staff accept. -/
def C3c_d1 : DB := admin_purchase_action C3cDB true "accept" 1

/-- C3 counterexample: state after a second staff accept on the same,
already accepted, purchase. -/
def C3c_d2 : DB := admin_purchase_action C3c_d1 true "accept" 1

/-- C3 witness buyer row. -/
def C3wUser : User := mkUser 4

/-- C3 witness purchase row. -/
def C3wPurchase : Purchase := mkPurchase 1 4 1 100

/-- C3 witness database. -/
def C3wDB : DB :=
  { users := [C3wUser], pets := [mkPet 1 100], purchases := [C3wPurchase]
    promos := [], user_promos := [], referral_relations := [] }

/-- C4 counterexample state: the purchase snapshotted price 100 at
creation, but the catalog row was edited to 200 before the discount
step ran. -/
def C4cDB : DB :=
  { users := [mkUser 1], pets := [mkPet 1 200], purchases := [mkPurchase 1 1 1 100]
    promos := [], user_promos := [], referral_relations := [] }

/-- C4 witness buyer row. -/
def C4wUser : User := mkUser 1

/-- C4 witness catalog row. -/
def C4wPet : Pet := mkPet 1 200

/-- C4 witness purchase row, snapshotted at a price that no longer
matches the catalog. -/
def C4wPurchase : Purchase := mkPurchase 1 1 1 100

/-- C4 witness database. -/
def C4wDB : DB :=
  { users := [C4wUser], pets := [C4wPet], purchases := [C4wPurchase]
    promos := [], user_promos := [], referral_relations := [] }

/-- C5 counterexample state: buyer 1 is banned with three warnings, and
the catalog still has a pet to buy. -/
def C5cDB : DB :=
  { users := [{ mkUser 1 with banned := true, warnings := 3 }]
    pets := [mkPet 1 100], purchases := [], promos := [], user_promos := []
    referral_relations := [] }

/-- C5 witness buyer row: two warnings already accrued. -/
def C5wUser : User := { mkUser 6 with warnings := 2 }

/-- C5 witness purchase row. -/
def C5wPurchase : Purchase := mkPurchase 1 6 1 100

/-- C5 witness database. -/
def C5wDB : DB :=
  { users := [C5wUser], pets := [mkPet 1 100], purchases := [C5wPurchase]
    promos := [], user_promos := [], referral_relations := [] }

/-- C6 witness database: buyer 1 holds the unused activation with id 7
of a 5 percent promo, with a pending purchase ready to finalize. -/
def C6wDB : DB :=
  { users := [mkUser 1], pets := [mkPet 1 10], purchases := [mkPurchase 1 1 1 10]
    promos := [mkPromo 1 "X5" 5], user_promos := [mkUserPromo 7 1 1]
    referral_relations := [] }

/-- C7 witness buyer row. -/
def C7wUser : User := mkUser 9

/-- C7 witness database: exactly 25 confirmed referrals for buyer 9. -/
def C7wDB : DB :=
  { users := [C7wUser], pets := [], purchases := [], promos := [], user_promos := []
    referral_relations := (List.range 25).map (fun i => mkConfirmedRel (i+1) 9 (100+i)) }

/-- C8 counterexample catalog row: a five-cent price, whose clamped half
(2.5 cents) is a tie that half-even and half-up round differently. -/
def C8cPet : Pet := mkPet 1 (5/100)

/-- C8 counterexample state: five-cent pet, 80 percent promo, so the cap
fires and the clamp rounds 2.5 cents. -/
def C8cDB : DB :=
  { users := [mkUser 1], pets := [C8cPet], purchases := [mkPurchase 1 1 1 (5/100)]
    promos := [mkPromo 1 "BIG80" 80], user_promos := [mkUserPromo 1 1 1]
    referral_relations := [] }

/-- C8 witness buyer row. -/
def C8wUser : User := mkUser 1

/-- C8 witness catalog row. -/
def C8wPet : Pet := mkPet 1 100

/-- C8 witness purchase row. -/
def C8wPurchase : Purchase := mkPurchase 1 1 1 100

/-- C8 witness promo activation. -/
def C8wUp : UserPromo := mkUserPromo 1 1 1

/-- C8 witness promo definition. -/
def C8wPromo : Promo := mkPromo 1 "BIG60" 60

/-- C8 witness database. -/
def C8wDB : DB :=
  { users := [C8wUser], pets := [C8wPet], purchases := [C8wPurchase]
    promos := [C8wPromo], user_promos := [C8wUp], referral_relations := [] }

/-- C10 zero-price state: the pet costs 0 and buyer 3 holds an unused 10
percent activation, so the cap division divides by zero. -/
def C10zDB : DB :=
  { users := [mkUser 3], pets := [mkPet 1 0], purchases := [mkPurchase 1 3 1 0]
    promos := [mkPromo 1 "P10" 10], user_promos := [mkUserPromo 1 3 1]
    referral_relations := [] }

/-- C10 witness buyer row. -/
def C10wUser : User := mkUser 1

/-- C10 witness catalog row with a strictly positive price. -/
def C10wPet : Pet := mkPet 1 100

/-- C10 witness purchase row. -/
def C10wPurchase : Purchase := mkPurchase 1 1 1 100

/-- C10 witness database. -/
def C10wDB : DB :=
  { users := [C10wUser], pets := [C10wPet], purchases := [C10wPurchase]
    promos := [], user_promos := [], referral_relations := [] }

lemma find?_congr_map {α β : Type} (l : List α) (f : α → β) (p : β → Bool) (q : α → Bool)
    (h : ∀ a, p (f a) = q a) : (l.map f).find? p = (l.find? q).map f := by
  rw [List.find?_map]
  have : p ∘ f = q := funext h
  rw [this]

lemma findPurchase_setPurchasePrice (db : DB) (pid : Nat) (price : ℚ) :
    findPurchase (setPurchasePrice db pid price) pid =
      (findPurchase db pid).map (fun p => if p.id == pid then { p with price_paid := price } else p) := by
  unfold findPurchase setPurchasePrice
  exact find?_congr_map _ _ _ _ (fun p => by by_cases h : p.id = pid <;> simp [h])

lemma purchasePrice_set (db : DB) (pid : Nat) (price : ℚ) (p : Purchase)
    (hp : findPurchase db pid = some p) :
    purchasePrice (setPurchasePrice db pid price) pid = price := by
  have hid : p.id = pid := by
    have := List.find?_some hp
    simpa using this
  simp [purchasePrice, findPurchase_setPurchasePrice, hp, hid]

lemma findPurchase_markPromoUsed (db : DB) (upId pid : Nat) :
    findPurchase (markPromoUsed db upId) pid = findPurchase db pid := by
  simp [findPurchase, markPromoUsed]

/-- Unfolding of apply_discounts_to_purchase once the three row lookups
succeed: the promo branch marks the activation used and prices from the
promo percent; an orphaned activation (promo row gone) leaves the base
price; the referral branch prices from the tier percent; both priced
branches error on a zero base and otherwise pass through the cap block. -/
lemma apply_discounts_spec (db : DB) (pid : Nat) (purchase : Purchase) (pet : Pet)
    (user : User)
    (hp : findPurchase db pid = some purchase)
    (hpet : findPet db purchase.pet_id = some pet)
    (huser : findUserByTg db purchase.user_id = some user) :
    apply_discounts_to_purchase db pid =
      match find_active_user_promo db user.tg_id with
      | some up =>
        match findPromo db up.promo_id with
        | some promo =>
          if pet.price = 0 then .error .divByZero
          else .ok (setPurchasePrice (markPromoUsed db up.id) pid
                (capApplied pet.price
                  (quantize2 (pet.price * (1 - (promo.discount_percent : ℚ) / 100)))))
        | none => .ok (setPurchasePrice db pid pet.price)
      | none =>
        if get_referral_discount db user > 0 then
          (if pet.price = 0 then .error .divByZero
           else .ok (setPurchasePrice db pid
                (capApplied pet.price
                  (quantize2 (pet.price * (1 - (get_referral_discount db user : ℚ) / 100))))))
        else .ok (setPurchasePrice db pid pet.price) := by
  simp only [apply_discounts_to_purchase, hp, hpet, huser]

lemma rhe_le_ceil (q : ℚ) : rhe q ≤ ⌈q⌉ := by
  have hfc := Int.floor_le_ceil q
  have hlt : ¬(q - ⌊q⌋ < 1/2) → ⌊q⌋ < ⌈q⌉ := by
    intro h
    have h1 : (1:ℚ)/2 ≤ q - ⌊q⌋ := not_lt.mp h
    have h2 : (⌊q⌋ : ℚ) < q := by linarith
    exact Int.lt_ceil.mpr h2
  simp only [rhe]
  split_ifs with h1 h2 h3
  · exact hfc
  · have := hlt h1; omega
  · exact hfc
  · have := hlt h1; omega

lemma rhe_le_of_le (q : ℚ) (m : ℤ) (h : q ≤ (m : ℚ)) : rhe q ≤ m :=
  le_trans (rhe_le_ceil q) (Int.ceil_le.mpr h)

lemma quantize2_half_le_capApplied (base x : ℚ) (hbpos : 0 < base) :
    quantize2 (base / 2) ≤ capApplied base (quantize2 x) := by
  unfold capApplied
  split_ifs with hcap
  · have h : base * (1 - 1/2) = base / 2 := by ring
    rw [h]
  · have hle : (base - quantize2 x) / base ≤ 1/2 := not_lt.mp hcap
    have h1 : base - quantize2 x ≤ 1/2 * base := (div_le_iff₀ hbpos).mp hle
    have h2 : base / 2 ≤ quantize2 x := by linarith
    unfold quantize2 at h2 ⊢
    have h3 : base / 2 * 100 ≤ ((rhe (x * 100) : ℤ) : ℚ) := by linarith
    have h4 : rhe (base / 2 * 100) ≤ rhe (x * 100) := rhe_le_of_le _ _ h3
    have h5 : ((rhe (base / 2 * 100) : ℤ) : ℚ) ≤ ((rhe (x * 100) : ℤ) : ℚ) :=
      Int.cast_le.mpr h4
    linarith

lemma quantize2_half_le_base (k : ℤ) (hk : 0 ≤ k) :
    quantize2 (((k : ℚ) / 100) / 2) ≤ (k : ℚ) / 100 := by
  unfold quantize2
  have h1 : ((k : ℚ) / 100) / 2 * 100 = (k : ℚ) / 2 := by ring
  rw [h1]
  have hkq : (0 : ℚ) ≤ (k : ℚ) := by exact_mod_cast hk
  have h2 : rhe ((k : ℚ) / 2) ≤ k := rhe_le_of_le _ _ (by linarith)
  have h3 : ((rhe ((k : ℚ) / 2) : ℤ) : ℚ) ≤ (k : ℚ) := Int.cast_le.mpr h2
  linarith

/-- C7: for every buyer with confirmed-referral count c, the
referral-tier discount is 30 if c is at least 50, 15 if c lies in
[25, 50), 5 if c lies in [5, 25), and 0 if c is below 5. -/
theorem C7_referral_tiers (db : DB) (u : User) :
    (50 ≤ confirmedReferralCount db u.tg_id → get_referral_discount db u = 30) ∧
    (25 ≤ confirmedReferralCount db u.tg_id → confirmedReferralCount db u.tg_id < 50 →
      get_referral_discount db u = 15) ∧
    (5 ≤ confirmedReferralCount db u.tg_id → confirmedReferralCount db u.tg_id < 25 →
      get_referral_discount db u = 5) ∧
    (confirmedReferralCount db u.tg_id < 5 → get_referral_discount db u = 0) := by
  unfold get_referral_discount
  refine ⟨fun h => ?_, fun h1 h2 => ?_, fun h1 h2 => ?_, fun h => ?_⟩
  · rw [if_pos h]
  · rw [if_neg (by omega), if_pos h1]
  · rw [if_neg (by omega), if_neg (by omega), if_pos h1]
  · rw [if_neg (by omega), if_neg (by omega), if_neg (by omega)]

/-- C7 witness: a buyer with exactly 25 confirmed referrals sits in the
[25, 50) band and gets the 15 percent tier. -/
theorem C7_referral_tiers_witness :
    25 ≤ confirmedReferralCount C7wDB C7wUser.tg_id ∧
    confirmedReferralCount C7wDB C7wUser.tg_id < 50 ∧
    get_referral_discount C7wDB C7wUser = 15 :=
  ⟨by decide, by decide, (C7_referral_tiers C7wDB C7wUser).2.1 (by decide) (by decide)⟩

/-- C2 (corrected): the 50 percent cap holds only up to the final
rounding to cents: for a catalog price that is a non-negative whole
number of cents, every successfully persisted price is at least the
half-even rounding of half the base price (so the cap can be undershot
by at most half a cent, and by no more). -/
theorem C2_cap_up_to_rounding (db : DB) (pid : Nat) (purchase : Purchase) (pet : Pet)
    (user : User) (db' : DB)
    (hp : findPurchase db pid = some purchase)
    (hpet : findPet db purchase.pet_id = some pet)
    (huser : findUserByTg db purchase.user_id = some user)
    (hcents : ∃ k : ℤ, 0 ≤ k ∧ pet.price = (k : ℚ) / 100)
    (hok : apply_discounts_to_purchase db pid = .ok db') :
    quantize2 (pet.price / 2) ≤ purchasePrice db' pid := by
  obtain ⟨k, hk0, hke⟩ := hcents
  have hknn : (0 : ℚ) ≤ pet.price := by
    rw [hke]
    have : (0 : ℚ) ≤ (k : ℚ) := by exact_mod_cast hk0
    linarith
  rw [apply_discounts_spec db pid purchase pet user hp hpet huser] at hok
  cases hfa : find_active_user_promo db user.tg_id with
  | some up =>
    simp only [hfa] at hok
    cases hpr : findPromo db up.promo_id with
    | some promo =>
      simp only [hpr] at hok
      by_cases h0 : pet.price = 0
      · rw [if_pos h0] at hok; exact Except.noConfusion hok
      · rw [if_neg h0] at hok
        injection hok with hdb
        rw [← hdb,
          purchasePrice_set _ _ _ purchase (by rw [findPurchase_markPromoUsed]; exact hp)]
        exact quantize2_half_le_capApplied _ _ (lt_of_le_of_ne hknn (Ne.symm h0))
    | none =>
      simp only [hpr] at hok
      injection hok with hdb
      rw [← hdb, purchasePrice_set _ _ _ purchase hp, hke]
      exact quantize2_half_le_base k hk0
  | none =>
    simp only [hfa] at hok
    by_cases href : get_referral_discount db user > 0
    · rw [if_pos href] at hok
      by_cases h0 : pet.price = 0
      · rw [if_pos h0] at hok; exact Except.noConfusion hok
      · rw [if_neg h0] at hok
        injection hok with hdb
        rw [← hdb, purchasePrice_set _ _ _ purchase hp]
        exact quantize2_half_le_capApplied _ _ (lt_of_le_of_ne hknn (Ne.symm h0))
    · rw [if_neg href] at hok
      injection hok with hdb
      rw [← hdb, purchasePrice_set _ _ _ purchase hp, hke]
      exact quantize2_half_le_base k hk0

/-- C2 witness: base 100 with a 60 percent promo clamps to 50, which
meets the half-even-rounded half of the base. -/
theorem C2_cap_up_to_rounding_witness :
    quantize2 (C2wPet.price / 2) ≤ purchasePrice (applyRun C2wDB 1) 1 :=
  C2_cap_up_to_rounding C2wDB 1 C2wPurchase C2wPet C2wUser (applyRun C2wDB 1)
    (by decide) (by decide) (by decide) ⟨10000, by decide, by decide⟩ (by decide)

/-- C2 counterexample: with a one-cent base price and a 60 percent
promo, the persisted final price is 0.00, strictly below half the base
price (0.005), so the discount fraction strictly exceeds 0.5. -/
theorem C2_cap_counterexample :
    apply_discounts_to_purchase C2cDB 1 = .ok (applyRun C2cDB 1) ∧
    purchasePrice (applyRun C2cDB 1) 1 < C2cPet.price * (1/2) :=
  ⟨by decide, by decide⟩

/-- C1 (corrected): at order finalization the strictly-greater check does
not happen.  Whenever the buyer holds any unused promo activation whose
promo row exists, apply_discounts_to_purchase applies that promo
unconditionally (marking it used), regardless of how its percent
compares with the referral tier at that moment; the strict comparison is
enforced only earlier, at activation time, in handle_promo_input.  When
no unused activation exists and the referral tier is positive, the
referral discount is applied. -/
theorem C1_promo_selection (db : DB) (pid : Nat) (purchase : Purchase) (pet : Pet)
    (user : User)
    (hp : findPurchase db pid = some purchase)
    (hpet : findPet db purchase.pet_id = some pet)
    (huser : findUserByTg db purchase.user_id = some user)
    (hbase : 0 < pet.price) :
    (∀ up promo, find_active_user_promo db user.tg_id = some up →
      findPromo db up.promo_id = some promo →
      apply_discounts_to_purchase db pid =
        .ok (setPurchasePrice (markPromoUsed db up.id) pid
          (capApplied pet.price
            (quantize2 (pet.price * (1 - (promo.discount_percent : ℚ) / 100)))))) ∧
    (find_active_user_promo db user.tg_id = none →
      0 < get_referral_discount db user →
      apply_discounts_to_purchase db pid =
        .ok (setPurchasePrice db pid
          (capApplied pet.price
            (quantize2 (pet.price * (1 - (get_referral_discount db user : ℚ) / 100)))))) := by
  constructor
  · intro up promo hfa hpr
    rw [apply_discounts_spec db pid purchase pet user hp hpet huser]
    simp only [hfa, hpr]
    rw [if_neg hbase.ne']
  · intro hfa href
    rw [apply_discounts_spec db pid purchase pet user hp hpet huser]
    simp only [hfa]
    rw [if_pos href, if_neg hbase.ne']

/-- C1 witness: a buyer with referral tier 0 and an unused 60 percent
activation has the promo applied and marked used at finalization. -/
theorem C1_promo_selection_witness :
    apply_discounts_to_purchase C1wDB 1 =
      .ok (setPurchasePrice (markPromoUsed C1wDB C1wUp.id) 1
        (capApplied C1wPet.price
          (quantize2 (C1wPet.price * (1 - (C1wPromo.discount_percent : ℚ) / 100))))) :=
  (C1_promo_selection C1wDB 1 C1wPurchase C1wPet C1wUser
    (by decide) (by decide) (by decide) (by decide)).1 C1wUp C1wPromo (by decide) (by decide)

/-- C1 counterexample: buyer 1 has referral tier 15 yet an unused 5
percent activation (activated before the referrals were confirmed) is
still selected at finalization: the promo is marked used and the order
is priced at 95, although 5 is not strictly greater than 15. -/
theorem C1_counterexample :
    get_referral_discount C1cDB C1cUser = 15 ∧
    (findPromo C1cDB 1).map (fun p => p.discount_percent) = some 5 ∧
    apply_discounts_to_purchase C1cDB 1 = .ok (applyRun C1cDB 1) ∧
    usedOf (applyRun C1cDB 1) 1 = true ∧
    purchasePrice (applyRun C1cDB 1) 1 = 95 :=
  ⟨by decide, by decide, by decide, by decide, by decide⟩

/-- C8 (corrected): every price persisted by the discount step is a whole
number of cents when the base price is, but the rounding mode is round
half to EVEN (the Decimal default), not round half up: when the selected
discount exceeds the cap, the persisted price is base times 0.5
quantized half-even. -/
theorem C8_halfeven_rounding (db : DB) (pid : Nat) (purchase : Purchase) (pet : Pet)
    (user : User) (db' : DB)
    (hp : findPurchase db pid = some purchase)
    (hpet : findPet db purchase.pet_id = some pet)
    (huser : findUserByTg db purchase.user_id = some user)
    (hcents : ∃ k : ℤ, pet.price = (k : ℚ) / 100)
    (hok : apply_discounts_to_purchase db pid = .ok db') :
    (∃ m : ℤ, purchasePrice db' pid = (m : ℚ) / 100) ∧
    (∀ up promo, find_active_user_promo db user.tg_id = some up →
      findPromo db up.promo_id = some promo →
      (pet.price - quantize2 (pet.price * (1 - (promo.discount_percent : ℚ) / 100))) /
          pet.price > 1/2 →
      purchasePrice db' pid = quantize2 (pet.price * (1 - 1/2))) ∧
    (find_active_user_promo db user.tg_id = none →
      0 < get_referral_discount db user →
      (pet.price -
          quantize2 (pet.price * (1 - (get_referral_discount db user : ℚ) / 100))) /
          pet.price > 1/2 →
      purchasePrice db' pid = quantize2 (pet.price * (1 - 1/2))) := by
  obtain ⟨k, hke⟩ := hcents
  rw [apply_discounts_spec db pid purchase pet user hp hpet huser] at hok
  cases hfa : find_active_user_promo db user.tg_id with
  | some up =>
    simp only [hfa] at hok
    cases hpr : findPromo db up.promo_id with
    | some promo =>
      simp only [hpr] at hok
      by_cases h0 : pet.price = 0
      · rw [if_pos h0] at hok; exact Except.noConfusion hok
      · rw [if_neg h0] at hok
        injection hok with hdb
        have hprice : purchasePrice db' pid =
            capApplied pet.price
              (quantize2 (pet.price * (1 - (promo.discount_percent : ℚ) / 100))) := by
          rw [← hdb,
            purchasePrice_set _ _ _ purchase (by rw [findPurchase_markPromoUsed]; exact hp)]
        refine ⟨?_, ?_, ?_⟩
        · rw [hprice]; unfold capApplied; split_ifs <;> exact ⟨_, rfl⟩
        · intro up' promo' hfa' hpr' hcap
          have hu : up' = up := (Option.some.inj hfa').symm
          rw [hu] at hpr'
          have hpm : promo' = promo := by rw [hpr] at hpr'; exact (Option.some.inj hpr').symm
          rw [hpm] at hcap
          rw [hprice]; unfold capApplied; rw [if_pos hcap]
        · intro hnone; exact Option.noConfusion hnone
    | none =>
      simp only [hpr] at hok
      injection hok with hdb
      have hprice : purchasePrice db' pid = pet.price := by
        rw [← hdb, purchasePrice_set _ _ _ purchase hp]
      refine ⟨⟨k, by rw [hprice, hke]⟩, ?_, ?_⟩
      · intro up' promo' hfa' hpr' _
        have hu : up' = up := (Option.some.inj hfa').symm
        rw [hu, hpr] at hpr'; exact Option.noConfusion hpr'
      · intro hnone; exact Option.noConfusion hnone
  | none =>
    simp only [hfa] at hok
    by_cases href : get_referral_discount db user > 0
    · rw [if_pos href] at hok
      by_cases h0 : pet.price = 0
      · rw [if_pos h0] at hok; exact Except.noConfusion hok
      · rw [if_neg h0] at hok
        injection hok with hdb
        have hprice : purchasePrice db' pid =
            capApplied pet.price
              (quantize2 (pet.price * (1 - (get_referral_discount db user : ℚ) / 100))) := by
          rw [← hdb, purchasePrice_set _ _ _ purchase hp]
        refine ⟨?_, ?_, ?_⟩
        · rw [hprice]; unfold capApplied; split_ifs <;> exact ⟨_, rfl⟩
        · intro up' promo' hfa' _ _; exact Option.noConfusion hfa'
        · intro _ _ hcap; rw [hprice]; unfold capApplied; rw [if_pos hcap]
    · rw [if_neg href] at hok
      injection hok with hdb
      have hprice : purchasePrice db' pid = pet.price := by
        rw [← hdb, purchasePrice_set _ _ _ purchase hp]
      refine ⟨⟨k, by rw [hprice, hke]⟩, ?_, ?_⟩
      · intro up' promo' hfa' _ _; exact Option.noConfusion hfa'
      · intro _ href' _; exact absurd href' href

/-- C8 witness: base 100 with a 60 percent promo exceeds the cap and the
persisted price equals the half-even quantization of 100 times 0.5. -/
theorem C8_halfeven_rounding_witness :
    purchasePrice (applyRun C8wDB 1) 1 = quantize2 (C8wPet.price * (1 - 1/2)) :=
  ((C8_halfeven_rounding C8wDB 1 C8wPurchase C8wPet C8wUser (applyRun C8wDB 1)
      (by decide) (by decide) (by decide) ⟨10000, by decide⟩ (by decide)).2.1)
    C8wUp C8wPromo (by decide) (by decide) (by decide)

/-- C8 counterexample: a five-cent base with an 80 percent promo trips
the cap, and the clamp rounds 2.5 cents half-even to 0.02, while
round-half-up would give 0.03: the persisted price differs from the
round-half-up value the claim prescribes. -/
theorem C8_counterexample :
    apply_discounts_to_purchase C8cDB 1 = .ok (applyRun C8cDB 1) ∧
    (C8cPet.price - quantize2 (C8cPet.price * (1 - (80 : ℚ) / 100))) / C8cPet.price
      > 1/2 ∧
    purchasePrice (applyRun C8cDB 1) 1 = 2/100 ∧
    roundHalfUp2 (C8cPet.price * (1/2)) = 3/100 ∧
    purchasePrice (applyRun C8cDB 1) 1 ≠ roundHalfUp2 (C8cPet.price * (1/2)) :=
  ⟨by decide, by decide, by decide, by decide, by decide⟩

/-- C10: under the precondition that the purchase, its buyer row and its
pet row exist and the catalog base price is strictly positive,
apply_discounts_to_purchase completes without raising; and the
precondition is necessary: on a zero-price pet with an active promo the
cap division raises. -/
theorem C10_totality (db : DB) (pid : Nat) (purchase : Purchase) (pet : Pet)
    (user : User)
    (hp : findPurchase db pid = some purchase)
    (hpet : findPet db purchase.pet_id = some pet)
    (huser : findUserByTg db purchase.user_id = some user)
    (hbase : 0 < pet.price) :
    (∃ db', apply_discounts_to_purchase db pid = .ok db') ∧
    apply_discounts_to_purchase C10zDB 1 = .error .divByZero := by
  refine ⟨?_, by decide⟩
  rw [apply_discounts_spec db pid purchase pet user hp hpet huser]
  cases hfa : find_active_user_promo db user.tg_id with
  | some up =>
    cases hpr : findPromo db up.promo_id with
    | some promo =>
      simp only [hfa, hpr]
      rw [if_neg hbase.ne']
      exact ⟨_, rfl⟩
    | none =>
      simp only [hfa, hpr]
      exact ⟨_, rfl⟩
  | none =>
    simp only [hfa]
    by_cases href : get_referral_discount db user > 0
    · rw [if_pos href, if_neg hbase.ne']
      exact ⟨_, rfl⟩
    · rw [if_neg href]
      exact ⟨_, rfl⟩

/-- C10 witness: on the concrete positive-price state the discount step
returns a committed database. -/
theorem C10_totality_witness :
    ∃ db', apply_discounts_to_purchase C10wDB 1 = .ok db' :=
  (C10_totality C10wDB 1 C10wPurchase C10wPet C10wUser
    (by decide) (by decide) (by decide) (by decide)).1

/-- C4 (corrected): pet_buy_cb does snapshot the catalog price into
price_paid at creation, but apply_discounts_to_purchase recomputes from
the LIVE catalog price, not from the snapshot: in the no-discount case
it persists the current pet price, whatever price_paid held. -/
theorem C4_snapshot_and_live_recompute (db : DB) :
    (∀ tg petid pet, findPet db petid = some pet →
      (pet_buy_cb db tg petid).purchases =
        db.purchases ++ [{ id := nextPurchaseId db, user_id := tg, pet_id := pet.id
                           status := "pending", proof_file_id := none
                           price_paid := pet.price }]) ∧
    (∀ pid purchase pet user,
      findPurchase db pid = some purchase →
      findPet db purchase.pet_id = some pet →
      findUserByTg db purchase.user_id = some user →
      find_active_user_promo db user.tg_id = none →
      get_referral_discount db user ≤ 0 →
      apply_discounts_to_purchase db pid = .ok (setPurchasePrice db pid pet.price)) := by
  constructor
  · intro tg petid pet hpet
    simp [pet_buy_cb, hpet]
  · intro pid purchase pet user hp hpet huser hfa href
    rw [apply_discounts_spec db pid purchase pet user hp hpet huser]
    simp only [hfa]
    rw [if_neg (not_lt.mpr href)]

/-- C4 witness: creating a purchase snapshots the current 200 price, and
on a no-discount state the discount step persists the live price. -/
theorem C4_snapshot_and_live_recompute_witness :
    (pet_buy_cb C4wDB 1 1).purchases =
      C4wDB.purchases ++ [{ id := nextPurchaseId C4wDB, user_id := 1, pet_id := C4wPet.id
                            status := "pending", proof_file_id := none
                            price_paid := C4wPet.price }] ∧
    apply_discounts_to_purchase C4wDB 1 = .ok (setPurchasePrice C4wDB 1 C4wPet.price) :=
  ⟨(C4_snapshot_and_live_recompute C4wDB).1 1 1 C4wPet (by decide),
   (C4_snapshot_and_live_recompute C4wDB).2 1 C4wPurchase C4wPet C4wUser
     (by decide) (by decide) (by decide) (by decide) (by decide)⟩

/-- C4 counterexample: the order snapshotted 100 at creation, the
catalog row now says 200, and the discount step overwrites the order
total with 200: a later catalog price edit does change the order's
total through apply_discounts_to_purchase. -/
theorem C4_counterexample :
    (findPurchase C4cDB 1).map (fun p => p.price_paid) = some 100 ∧
    apply_discounts_to_purchase C4cDB 1 = .ok (applyRun C4cDB 1) ∧
    purchasePrice (applyRun C4cDB 1) 1 = 200 ∧
    (200 : ℚ) ≠ 100 :=
  ⟨by decide, by decide, by decide, by decide⟩

/-- C9 (modelled from the spec, no timeout code exists in src): the
timeout transition re-checks state, expires only an order still in
AwaitingPayment, leaves every other state unchanged (in particular
ProofSubmitted, the race winner), and is idempotent. -/
theorem C9_expire_timeout_race_safe (s : OrderStatus) :
    expire_timeout .awaitingPayment = .expired ∧
    (s ≠ .awaitingPayment → expire_timeout s = s) ∧
    expire_timeout (expire_timeout s) = expire_timeout s := by
  refine ⟨by decide, fun h => ?_, by cases s <;> decide⟩
  cases s <;> first
  | exact absurd rfl h
  | decide

/-- C9 witness: an order that already moved to ProofSubmitted is left
untouched by the timeout. -/
theorem C9_expire_timeout_witness :
    expire_timeout .proofSubmitted = .proofSubmitted :=
  (C9_expire_timeout_race_safe .proofSubmitted).2.1 (by decide)

lemma findPurchase_setPurchaseStatus (db : DB) (pid : Nat) (s : String) :
    findPurchase (setPurchaseStatus db pid s) pid =
      (findPurchase db pid).map
        (fun p => if p.id == pid then { p with status := s } else p) := by
  unfold findPurchase setPurchaseStatus
  exact find?_congr_map _ _ _ _ (fun p => by by_cases h : p.id = pid <;> simp [h])

lemma purchaseStatus_set (db : DB) (pid : Nat) (s : String) (p : Purchase)
    (hp : findPurchase db pid = some p) :
    purchaseStatus (setPurchaseStatus db pid s) pid = some s := by
  have hid : p.id = pid := by simpa using List.find?_some hp
  simp [purchaseStatus, findPurchase_setPurchaseStatus, hp, hid]

lemma findUserByTg_mapUsers (l : List User) (t : Nat) (f : User → User)
    (hf : ∀ u, (f u).tg_id = u.tg_id) :
    (l.map f).find? (fun u => u.tg_id == t) =
      (l.find? (fun u => u.tg_id == t)).map f :=
  find?_congr_map l f _ _ (fun u => by rw [hf])

/-- C3 (corrected): the staff accept decision carries no status guard and
no reward step: every invocation, including on an already accepted
purchase, writes status accepted and increments the buyer's purchase
count again, and no user's balance or referral count ever changes
(confirmation never credits a referrer). -/
theorem C3_confirm_unguarded (db : DB) (pid : Nat) (purchase : Purchase) (buyer : User)
    (hp : findPurchase db pid = some purchase)
    (hb : findUserByTg db purchase.user_id = some buyer) :
    purchaseStatus (admin_purchase_action db true "accept" pid) pid = some "accepted" ∧
    userPurchases (admin_purchase_action db true "accept" pid) purchase.user_id =
      some (buyer.purchases + 1) ∧
    (admin_purchase_action db true "accept" pid).users.map
        (fun u => (u.tg_id, u.balance, u.referrals)) =
      db.users.map (fun u => (u.tg_id, u.balance, u.referrals)) := by
  have hbt : (buyer.tg_id == purchase.user_id) = true := by
    simpa using List.find?_some hb
  have hadmin : admin_purchase_action db true "accept" pid =
      { setPurchaseStatus db pid "accepted" with
          users := db.users.map (bumpPurchases purchase.user_id) } := by
    unfold admin_purchase_action
    simp only [hp, hb]
    rfl
  refine ⟨?_, ?_, ?_⟩
  · rw [hadmin]
    exact purchaseStatus_set db pid "accepted" purchase hp
  · rw [hadmin]
    unfold userPurchases findUserByTg
    rw [findUserByTg_mapUsers db.users purchase.user_id _
      (fun u => by unfold bumpPurchases
                   by_cases h : u.tg_id = purchase.user_id <;> simp [h])]
    have hfind : db.users.find? (fun u => u.tg_id == purchase.user_id) = some buyer := hb
    rw [hfind]
    simp [bumpPurchases, hbt]
  · rw [hadmin]
    show (db.users.map _).map _ = _
    rw [List.map_map]
    have hcomp : ((fun u : User => (u.tg_id, u.balance, u.referrals)) ∘
        bumpPurchases purchase.user_id) =
        (fun u : User => (u.tg_id, u.balance, u.referrals)) := by
      funext u
      unfold bumpPurchases
      by_cases h : u.tg_id = purchase.user_id <;> simp [h]
    rw [hcomp]

/-- C3 witness: on a pending purchase with an existing buyer, accept
writes the accepted status, bumps the purchase count, and leaves every
balance and referral count as it was. -/
theorem C3_confirm_unguarded_witness :
    purchaseStatus (admin_purchase_action C3wDB true "accept" 1) 1 = some "accepted" ∧
    userPurchases (admin_purchase_action C3wDB true "accept" 1) C3wPurchase.user_id =
      some (C3wUser.purchases + 1) ∧
    (admin_purchase_action C3wDB true "accept" 1).users.map
        (fun u => (u.tg_id, u.balance, u.referrals)) =
      C3wDB.users.map (fun u => (u.tg_id, u.balance, u.referrals)) :=
  C3_confirm_unguarded C3wDB 1 C3wPurchase C3wUser (by decide) (by decide)

/-- C3 counterexample: accepting purchase 1 twice succeeds both times and
increments the buyer's purchase count to 2 (no AlreadySettled), and the
referrer (buyer 9, with a confirmed relation and referred_by set) keeps
balance 0: the 5 percent reward never happens. -/
theorem C3_counterexample :
    purchaseStatus C3c_d1 1 = some "accepted" ∧
    userPurchases C3c_d1 1 = some 1 ∧
    userPurchases C3c_d2 1 = some 2 ∧
    purchaseStatus C3c_d2 1 = some "accepted" ∧
    userBalance C3c_d1 9 = some 0 ∧
    userBalance C3c_d2 9 = some 0 :=
  ⟨by decide, by decide, by decide, by decide, by decide, by decide⟩

/-- C5 (corrected): rejecting a purchase increments the buyer's warning
count, and the banned flag is set once the new count reaches 3; but
order creation itself (pet_buy_cb) never consults the banned flag: it
appends a pending purchase for any buyer, banned or not (only the
buy_menu text handler turns banned buyers away, and no BuyerBanned
error exists). -/
theorem C5_reject_warnings_no_ban_gate (db : DB) (pid : Nat) (purchase : Purchase)
    (buyer : User)
    (hp : findPurchase db pid = some purchase)
    (hb : findUserByTg db purchase.user_id = some buyer) :
    userWarnings (admin_purchase_action db true "reject" pid) purchase.user_id =
      some (buyer.warnings + 1) ∧
    (buyer.warnings + 1 ≥ 3 →
      userBanned (admin_purchase_action db true "reject" pid) purchase.user_id =
        some true) ∧
    (∀ tg petid pet, findPet db petid = some pet →
      (pet_buy_cb db tg petid).purchases =
        db.purchases ++ [{ id := nextPurchaseId db, user_id := tg, pet_id := pet.id
                           status := "pending", proof_file_id := none
                           price_paid := pet.price }]) := by
  have hbt : (buyer.tg_id == purchase.user_id) = true := by
    simpa using List.find?_some hb
  have hadmin : admin_purchase_action db true "reject" pid =
      { setPurchaseStatus db pid "rejected" with
          users := db.users.map (bumpWarnings purchase.user_id) } := by
    unfold admin_purchase_action
    simp only [hp, hb]
    rfl
  refine ⟨?_, fun h3 => ?_, fun tg petid pet hpet => by simp [pet_buy_cb, hpet]⟩
  · rw [hadmin]
    unfold userWarnings findUserByTg
    rw [findUserByTg_mapUsers db.users purchase.user_id _
      (fun u => by unfold bumpWarnings
                   by_cases h : u.tg_id = purchase.user_id <;> simp [h])]
    have hfind : db.users.find? (fun u => u.tg_id == purchase.user_id) = some buyer := hb
    rw [hfind]
    simp [bumpWarnings, hbt]
  · rw [hadmin]
    unfold userBanned findUserByTg
    rw [findUserByTg_mapUsers db.users purchase.user_id _
      (fun u => by unfold bumpWarnings
                   by_cases h : u.tg_id = purchase.user_id <;> simp [h])]
    have hfind : db.users.find? (fun u => u.tg_id == purchase.user_id) = some buyer := hb
    rw [hfind]
    simp [bumpWarnings, hbt, h3]

/-- C5 witness: rejecting the pending purchase of a buyer with two prior
warnings yields three warnings and sets banned, and order creation
still appends a purchase row. -/
theorem C5_reject_warnings_witness :
    userWarnings (admin_purchase_action C5wDB true "reject" 1) C5wPurchase.user_id =
      some (C5wUser.warnings + 1) ∧
    userBanned (admin_purchase_action C5wDB true "reject" 1) C5wPurchase.user_id =
      some true ∧
    (pet_buy_cb C5wDB 6 1).purchases.length = C5wDB.purchases.length + 1 :=
  ⟨(C5_reject_warnings_no_ban_gate C5wDB 1 C5wPurchase C5wUser (by decide) (by decide)).1,
   (C5_reject_warnings_no_ban_gate C5wDB 1 C5wPurchase C5wUser (by decide) (by decide)).2.1
     (by decide),
   by decide⟩

/-- C5 counterexample: buyer 1 is banned, yet the buy callback happily
creates a new pending purchase for them: order creation does not fail
for banned buyers and no BuyerBanned error exists. -/
theorem C5_counterexample :
    userBanned C5cDB 1 = some true ∧
    C5cDB.purchases.length = 0 ∧
    (pet_buy_cb C5cDB 1 1).purchases.length = 1 ∧
    purchaseStatus (pet_buy_cb C5cDB 1 1) (nextPurchaseId C5cDB) = some "pending" :=
  ⟨by decide, by decide, by decide, by decide⟩

lemma user_promos_pet_buy (db : DB) (tg petid : Nat) :
    (pet_buy_cb db tg petid).user_promos = db.user_promos := by
  unfold pet_buy_cb
  cases h : findPet db petid <;> rfl

lemma user_promos_admin (db : DB) (a : Bool) (s : String) (pid : Nat) :
    (admin_purchase_action db a s pid).user_promos = db.user_promos := by
  unfold admin_purchase_action
  cases h1 : findPurchase db pid with
  | none => rfl
  | some purchase =>
    dsimp only
    cases a with
    | false => rfl
    | true =>
      cases h2 : findUserByTg db purchase.user_id with
      | none => rfl
      | some buyer =>
        dsimp only
        by_cases h3 : (s == "accept") = true
        · rw [if_pos h3]; rfl
        · rw [if_neg h3]; rfl

lemma promoEligible_user_promos (db : DB) (tg : Nat) (promo : Promo) (now : Nat) :
    (handlePromoEligible db tg promo now).user_promos = db.user_promos ∨
    ∃ r : UserPromo, r.is_used = false ∧
      (handlePromoEligible db tg promo now).user_promos = db.user_promos ++ [r] := by
  unfold handlePromoEligible
  cases h1 : findUserByTg db tg with
  | none => exact Or.inl rfl
  | some user =>
    dsimp only
    by_cases h2 : promo.discount_percent ≤ get_referral_discount db user
    · rw [if_pos h2]; exact Or.inl rfl
    · rw [if_neg h2]
      right
      refine ⟨{ id := nextUserPromoId db, user_id := tg, promo_id := promo.id
                is_used := false, activated_at := now }, rfl, ?_⟩
      cases h3 : promo.uses_left <;> rfl

lemma promoInput_user_promos (db : DB) (tg : Nat) (code : String) (now : Nat) :
    (handle_promo_input db tg code now).user_promos = db.user_promos ∨
    ∃ r : UserPromo, r.is_used = false ∧
      (handle_promo_input db tg code now).user_promos = db.user_promos ++ [r] := by
  unfold handle_promo_input
  cases h1 : db.promos.find? (fun p => p.code == code) with
  | none => exact Or.inl rfl
  | some promo =>
    dsimp only
    cases h2 : promo.uses_left with
    | some u =>
      dsimp only
      by_cases h3 : u ≤ 0
      · rw [if_pos h3]; exact Or.inl rfl
      · rw [if_neg h3]; exact promoEligible_user_promos db tg promo now
    | none => exact promoEligible_user_promos db tg promo now

lemma apply_ok_user_promos (db : DB) (pid : Nat) (db' : DB)
    (h : apply_discounts_to_purchase db pid = .ok db') :
    db'.user_promos = db.user_promos ∨
    ∃ j, db'.user_promos = (markPromoUsed db j).user_promos := by
  unfold apply_discounts_to_purchase at h
  cases h1 : findPurchase db pid with
  | none =>
    simp only [h1] at h
    injection h with h
    rw [← h]; exact Or.inl rfl
  | some purchase =>
    simp only [h1] at h
    cases h2 : findPet db purchase.pet_id with
    | none => simp only [h2] at h; exact Except.noConfusion h
    | some pet =>
      simp only [h2] at h
      cases h3 : findUserByTg db purchase.user_id with
      | none => simp only [h3] at h; exact Except.noConfusion h
      | some user =>
        simp only [h3] at h
        cases h4 : find_active_user_promo db user.tg_id with
        | some up =>
          simp only [h4] at h
          cases h5 : findPromo db up.promo_id with
          | some promo =>
            simp only [h5] at h
            by_cases h6 : pet.price = 0
            · rw [if_pos h6] at h; exact Except.noConfusion h
            · rw [if_neg h6] at h
              injection h with h
              right
              exact ⟨up.id, by rw [← h]; rfl⟩
          | none =>
            simp only [h5] at h
            injection h with h
            rw [← h]; exact Or.inl rfl
        | none =>
          simp only [h4] at h
          by_cases h7 : get_referral_discount db user > 0
          · rw [if_pos h7] at h
            by_cases h6 : pet.price = 0
            · rw [if_pos h6] at h; exact Except.noConfusion h
            · rw [if_neg h6] at h
              injection h with h
              rw [← h]; exact Or.inl rfl
          · rw [if_neg h7] at h
            injection h with h
            rw [← h]; exact Or.inl rfl

lemma applyRun_user_promos (db : DB) (pid : Nat) :
    (applyRun db pid).user_promos = db.user_promos ∨
    ∃ j, (applyRun db pid).user_promos = (markPromoUsed db j).user_promos := by
  unfold applyRun
  cases h : apply_discounts_to_purchase db pid with
  | ok d => exact apply_ok_user_promos db pid d h
  | error e => exact Or.inl rfl

/-- The three possible shapes of the user_promos table after one event:
untouched, extended by a fresh unused activation, or rewritten by a
markPromoUsed. -/
lemma step_user_promos (db : DB) (op : Op) :
    (step db op).user_promos = db.user_promos ∨
    (∃ r : UserPromo, r.is_used = false ∧
      (step db op).user_promos = db.user_promos ++ [r]) ∨
    (∃ j, (step db op).user_promos = (markPromoUsed db j).user_promos) := by
  cases op with
  | buy tg petid => exact Or.inl (user_promos_pet_buy db tg petid)
  | promoInput tg code now =>
    rcases promoInput_user_promos db tg code now with heq | hex
    · exact Or.inl heq
    · exact Or.inr (Or.inl hex)
  | adminAct a s pid => exact Or.inl (user_promos_admin db a s pid)
  | applyDiscounts pid =>
    rcases applyRun_user_promos db pid with heq | hex
    · exact Or.inl heq
    · exact Or.inr (Or.inr hex)

lemma usedOf_markPromoUsed_mono (db : DB) (j i : Nat) (h : usedOf db i = true) :
    usedOf (markPromoUsed db j) i = true := by
  unfold usedOf at h ⊢
  show (db.user_promos.map _).any _ = true
  rw [List.any_map]
  rw [List.any_eq_true] at h ⊢
  obtain ⟨x, hx, hpx⟩ := h
  refine ⟨x, hx, ?_⟩
  simp only [Function.comp_apply]
  by_cases hc : x.id = j <;> simp_all

lemma presentOf_markPromoUsed (db : DB) (j i : Nat) :
    presentOf (markPromoUsed db j) i = presentOf db i := by
  unfold presentOf
  show (db.user_promos.map _).any _ = _
  rw [List.any_map]
  congr 1
  funext x
  by_cases hc : x.id = j <;> simp [hc]

lemma usedOf_step_mono (db : DB) (op : Op) (i : Nat) (h : usedOf db i = true) :
    usedOf (step db op) i = true := by
  rcases step_user_promos db op with heq | ⟨r, hr, heq⟩ | ⟨j, heq⟩
  · unfold usedOf at h ⊢; rw [heq]; exact h
  · unfold usedOf at h ⊢; rw [heq, List.any_append]; simp [h]
  · unfold usedOf; rw [heq]
    exact usedOf_markPromoUsed_mono db j i h

lemma presentOf_step_mono (db : DB) (op : Op) (i : Nat) (h : presentOf db i = true) :
    presentOf (step db op) i = true := by
  rcases step_user_promos db op with heq | ⟨r, hr, heq⟩ | ⟨j, heq⟩
  · unfold presentOf at h ⊢; rw [heq]; exact h
  · unfold presentOf at h ⊢; rw [heq, List.any_append]; simp [h]
  · unfold presentOf; rw [heq]
    rw [show ((markPromoUsed db j).user_promos.any (fun r => r.id == i)) =
        presentOf (markPromoUsed db j) i from rfl]
    rw [presentOf_markPromoUsed]
    exact h

lemma usedOf_step_not_apply (db : DB) (op : Op) (i : Nat)
    (hop : isApplyOp op = false) :
    usedOf (step db op) i = usedOf db i := by
  cases op with
  | buy tg petid => unfold usedOf; rw [show (step db (.buy tg petid)).user_promos =
      db.user_promos from user_promos_pet_buy db tg petid]
  | promoInput tg code now =>
    rcases promoInput_user_promos db tg code now with heq | ⟨r, hr, heq⟩
    · unfold usedOf; rw [show (step db (.promoInput tg code now)).user_promos =
        db.user_promos from heq]
    · unfold usedOf
      rw [show (step db (.promoInput tg code now)).user_promos =
        db.user_promos ++ [r] from heq]
      rw [List.any_append]
      simp [hr]
  | adminAct a s pid => unfold usedOf; rw [show (step db (.adminAct a s pid)).user_promos =
      db.user_promos from user_promos_admin db a s pid]
  | applyDiscounts pid => exact absurd hop (by simp [isApplyOp])

lemma usedOf_run_mono (db : DB) (ops : List Op) (i : Nat) (h : usedOf db i = true) :
    usedOf (run db ops) i = true := by
  induction ops generalizing db with
  | nil => exact h
  | cons op rest ih => exact ih (step db op) (usedOf_step_mono db op i h)

lemma presentOf_run_mono (db : DB) (ops : List Op) (i : Nat)
    (h : presentOf db i = true) : presentOf (run db ops) i = true := by
  induction ops generalizing db with
  | nil => exact h
  | cons op rest ih => exact ih (step db op) (presentOf_step_mono db op i h)

lemma flipCount_zero_of_used (db : DB) (ops : List Op) (i : Nat)
    (h : usedOf db i = true) : flipCount db i ops = 0 := by
  induction ops generalizing db with
  | nil => rfl
  | cons op rest ih =>
    show (if usedOf db i = false ∧ usedOf (step db op) i = true then 1 else 0) +
        flipCount (step db op) i rest = 0
    rw [if_neg (by simp [h]), ih (step db op) (usedOf_step_mono db op i h)]

/-- C6: over any event sequence the is_used flag of a promo activation
flips from false to true at most once, such a flip can only be caused by
an order finalization event, a used flag never reverts, and an existing
activation row is never deleted. -/
theorem C6_promo_used_once (db : DB) (ops : List Op) (upId : Nat) :
    flipCount db upId ops ≤ 1 ∧
    (usedOf db upId = true → usedOf (run db ops) upId = true) ∧
    (presentOf db upId = true → presentOf (run db ops) upId = true) ∧
    (∀ dbx op, usedOf dbx upId = false → usedOf (step dbx op) upId = true →
      isApplyOp op = true) := by
  refine ⟨?_, usedOf_run_mono db ops upId, presentOf_run_mono db ops upId, ?_⟩
  · induction ops generalizing db with
    | nil => simp [flipCount]
    | cons op rest ih =>
      show (if usedOf db upId = false ∧ usedOf (step db op) upId = true then 1 else 0) +
          flipCount (step db op) upId rest ≤ 1
      by_cases hc : usedOf db upId = false ∧ usedOf (step db op) upId = true
      · rw [if_pos hc, flipCount_zero_of_used (step db op) rest upId hc.2]
      · rw [if_neg hc]
        simpa using ih (step db op)
  · intro dbx op h1 h2
    cases hb : isApplyOp op with
    | true => rfl
    | false =>
      rw [usedOf_step_not_apply dbx op upId hb, h1] at h2
      exact Bool.noConfusion h2

/-- C6 witness: activation 7 is unused, one finalization event flips it,
the flipping event is a finalization, two finalizations in a row still
flip it only once, and the flag stays true afterwards. -/
theorem C6_promo_used_once_witness :
    usedOf C6wDB 7 = false ∧
    usedOf (step C6wDB (.applyDiscounts 1)) 7 = true ∧
    isApplyOp (.applyDiscounts 1) = true ∧
    flipCount C6wDB 7 [.applyDiscounts 1, .applyDiscounts 1] ≤ 1 ∧
    usedOf (run (step C6wDB (.applyDiscounts 1)) [.applyDiscounts 1]) 7 = true :=
  ⟨by decide, by decide,
   (C6_promo_used_once C6wDB [] 7).2.2.2 C6wDB (.applyDiscounts 1) (by decide) (by decide),
   (C6_promo_used_once C6wDB [.applyDiscounts 1, .applyDiscounts 1] 7).1,
   (C6_promo_used_once (step C6wDB (.applyDiscounts 1)) [.applyDiscounts 1] 7).2.1
     (by decide)⟩

end GardensShop
